import Mathlib

/-!
Shallow embedding of `taos-query/src/tmq/mod.rs` (TMQ consumer abstraction):
the `Timeout` policy type with its raw encoding and textual parsing, the
`MessageSet` container, the blocking (`AsConsumer`) and suspendable
(`AsAsyncConsumer`) consumer contracts, the bridging adapters between them,
and the pull-iterator / push-stream adapters.

Rust `std::time::Duration` is modelled as a pair of seconds (`u64` value)
and nanoseconds (`u32` value below 10^9); machine-integer casts are made
explicit on `Nat`/`Int`. Fallible operations return `Except`. Stateful
`&self` methods with interior mutability are modelled by explicit state
passing over an abstract state type `σ`.
-/

/-- Model of Rust `std::time::Duration`: whole seconds plus a sub-second
nanosecond part. Field values stand for `u64` / `u32` machine integers. -/
structure Duration where
  secs : Nat
  nanos : Nat
deriving DecidableEq, Repr

abbrev Dur := Duration

namespace Duration

/-- `Duration::from_secs`. -/
def from_secs (s : Nat) : Duration := ⟨s, 0⟩

/-- `Duration::from_millis`: `millis / 1000` seconds and
`(millis % 1000) * 1_000_000` nanoseconds. -/
def from_millis (ms : Nat) : Duration := ⟨ms / 1000, (ms % 1000) * 1000000⟩

/-- `Duration::as_millis`, a `u128` value: `secs * 1000 + nanos / 1_000_000`. -/
def as_millis (d : Duration) : Nat := d.secs * 1000 + d.nanos / 1000000

end Duration

/-- The Rust cast `v as i64` applied to a `u128` value `v`: keep the low
64 bits and reinterpret them in two's complement. -/
def toI64wrap (n : Nat) : Int :=
  if n % 2 ^ 64 < 2 ^ 63 then (n % 2 ^ 64 : Int) else (n % 2 ^ 64 : Int) - 2 ^ 64

/-- `Timeout`: wait forever, do not block, or wait up to a duration. -/
inductive Timeout where
  | Never : Timeout
  | None : Timeout
  | Duration (t : Dur) : Timeout
deriving DecidableEq, Repr

namespace Timeout

/-- `Timeout::from_secs`. -/
def from_secs (secs : Nat) : Timeout := .Duration (Duration.from_secs secs)

/-- `Timeout::from_millis`. -/
def from_millis (millis : Nat) : Timeout := .Duration (Duration.from_millis millis)

/-- `Timeout::never`. -/
def never : Timeout := .Never

/-- `Timeout::none`. -/
def none : Timeout := .None

/-- `Timeout::as_raw_timeout`: `-1` for `Never`, `0` for `None`, and
`t.as_millis() as i64` (a truncating two's-complement cast) otherwise. -/
def as_raw_timeout : Timeout → Int
  | .Never => -1
  | .None => 0
  | .Duration t => toI64wrap t.as_millis

/-- `Timeout::as_duration`: `Never` maps to
`Duration::from_secs(i64::MAX as u64 / 1000)`, `None` to zero, and
`Duration t` back to `t`. -/
def as_duration : Timeout → Dur
  | .Never => Duration.from_secs (9223372036854775807 / 1000)
  | .None => Duration.from_secs 0
  | .Duration t => t

end Timeout

/-- `TimeoutError`: empty input, or an invalid expression carrying the
offending input and the underlying parser's message. -/
inductive TimeoutError where
  | Empty : TimeoutError
  | Invalid (input : String) (msg : String) : TimeoutError
deriving DecidableEq, Repr

/-- Model of Rust `str::to_lowercase`: lowercase each character (for the
ASCII literals compared against here, per-character simple lowercasing
coincides with Unicode full lowercasing). -/
def to_lowercase (s : String) : String := ⟨s.data.map Char.toLower⟩

/-- `impl FromStr for Timeout`: reject the empty string, match the
lowercased input against `"never"` / `"none"`, and otherwise delegate to
the external `parse_duration::parse` (abstracted as the parameter `pd`,
whose error is rendered to a string), wrapping its failure in
`TimeoutError::Invalid` with the original input. -/
def Timeout.from_str (pd : String → Except String Dur) (s : String) :
    Except TimeoutError Timeout :=
  if s = "" then .error .Empty
  else
    match to_lowercase s with
    | "never" => .ok .Never
    | "none" => .ok .None
    | _ =>
      match pd s with
      | .ok d => .ok (.Duration d)
      | .error err => .error (.Invalid s err)

/-- `MessageSet<M, D>`: metadata only, data only, or both. -/
inductive MessageSet (M D : Type u) where
  | Meta (m : M) : MessageSet M D
  | Data (d : D) : MessageSet M D
  | MetaData (m : M) (d : D) : MessageSet M D

namespace MessageSet

/-- `MessageSet::into_meta`. -/
def into_meta : MessageSet M D → Option M
  | .Meta m => some m
  | .Data _ => Option.none
  | .MetaData m _ => some m

/-- `MessageSet::into_data`. -/
def into_data : MessageSet M D → Option D
  | .Meta _ => Option.none
  | .Data d => some d
  | .MetaData _ d => some d

/-- `MessageSet::has_meta`: true on `Meta` and `MetaData`. -/
def has_meta : MessageSet M D → Bool
  | .Meta _ => true
  | .Data _ => false
  | .MetaData _ _ => true

/-- `MessageSet::has_data`: true on `Data` and `MetaData`. -/
def has_data : MessageSet M D → Bool
  | .Meta _ => false
  | .Data _ => true
  | .MetaData _ _ => true

end MessageSet

/-- `pub type VGroupId = i32`. -/
abbrev VGroupId := Int

/-- `Assignment`: per-partition progress record (`vgroup_id`, current
`offset`, and the valid window `begin`/`end`). Fields stand for `i32` /
`i64` machine integers; `end` is spelled `end_` (Lean keyword). -/
structure Assignment where
  vgroup_id : VGroupId
  offset : Int
  begin_ : Int
  end_ : Int
deriving DecidableEq, Repr

/-- `Result<Option<T>, E>::transpose`: `Ok(None)` to `None`,
`Ok(Some(x))` to `Some(Ok(x))`, `Err(e)` to `Some(Err(e))`. -/
def transposeR : Except E (Option α) → Option (Except E α)
  | .ok Option.none => Option.none
  | .ok (some x) => some (.ok x)
  | .error e => some (.error e)

/-- A suspendable (async) computation: either already complete, or a
suspension that must be resumed to make progress. An `async fn` that runs
to completion on its first poll is a `done` value. -/
inductive Susp (α : Type u) where
  | done (a : α) : Susp α
  | yield (k : Unit → Susp α) : Susp α

/-- Run a suspendable computation to completion, resuming every
suspension point. -/
def runSusp : Susp α → α
  | .done a => a
  | .yield k => runSusp (k ())

/-- Modelled from the spec: `crate::block_in_place_or_global` (declared in
the crate root, not part of this module's source) is the globally
available "run suspension to completion on the current thread" executor
used by the blocking-over-suspendable derivation; it returns the
suspendable operation's own result. -/
def block_in_place_or_global : Susp α → α := runSusp

/-- Blocking meta capability `IsMeta` (trait as a record of operations over
abstract message type `T`; `RawMeta` / `JsonMeta` payloads and the error
type are abstract parameters). -/
structure IsMeta (T E RawMeta JsonMeta : Type) where
  as_raw_meta : T → Except E RawMeta
  as_json_meta : T → Except E JsonMeta

/-- Suspendable meta capability `IsAsyncMeta`. -/
structure IsAsyncMeta (T E RawMeta JsonMeta : Type) where
  as_raw_meta : T → Susp (Except E RawMeta)
  as_json_meta : T → Susp (Except E JsonMeta)

/-- `impl<T> IsMeta for T where T: IsAsyncMeta + SyncOnAsync`: each
blocking operation runs the suspendable one to completion via
`block_in_place_or_global`. -/
def IsMeta.of_async (I : IsAsyncMeta T E RawMeta JsonMeta) :
    IsMeta T E RawMeta JsonMeta :=
  ⟨fun t => block_in_place_or_global (I.as_raw_meta t),
   fun t => block_in_place_or_global (I.as_json_meta t)⟩

/-- `impl<T> IsAsyncMeta for T where T: IsMeta + AsyncOnSync`: each
suspendable operation immediately invokes the blocking one and completes
with its result (no true suspension point). -/
def IsAsyncMeta.of_sync (I : IsMeta T E RawMeta JsonMeta) :
    IsAsyncMeta T E RawMeta JsonMeta :=
  ⟨fun t => .done (I.as_raw_meta t),
   fun t => .done (I.as_json_meta t)⟩

/-- The body of the provided (default) method `AsConsumer::default_timeout`. -/
def default_timeout_provided : Timeout := Timeout.Never

/-- Blocking consumer contract `AsConsumer` as a record of operations over
an abstract consumer state `σ` (interior mutability is explicit state
passing); `Offset`, `Meta`, `Data` payloads and the error type are the
abstract parameters `O`, `M`, `D`, `E`. A consumer that does not override
`default_timeout` gets the provided body, `Timeout::Never`. -/
structure AsConsumer (σ E O M D : Type) where
  default_timeout : σ → Timeout := fun _ => default_timeout_provided
  subscribe : σ → List String → Except E Unit × σ
  recv_timeout : σ → Timeout → Except E (Option (O × MessageSet M D)) × σ
  commit : σ → O → Except E Unit × σ
  assignments : σ → Option (List (String × List Assignment)) × σ
  offset_seek : σ → String → VGroupId → Int → Except E Unit × σ

/-- Suspendable consumer contract `AsAsyncConsumer` (its `default_timeout`
has no provided body). -/
structure AsAsyncConsumer (σ E O M D : Type) where
  default_timeout : σ → Timeout
  subscribe : σ → List String → Susp (Except E Unit × σ)
  recv_timeout : σ → Timeout → Susp (Except E (Option (O × MessageSet M D)) × σ)
  commit : σ → O → Susp (Except E Unit × σ)
  assignments : σ → Susp (Option (List (String × List Assignment)) × σ)
  offset_seek : σ → String → VGroupId → Int → Susp (Except E Unit × σ)

/-- `AsConsumer::recv`, a provided method:
`self.recv_timeout(self.default_timeout())`. -/
def AsConsumer.recv (C : AsConsumer σ E O M D) (s : σ) :
    Except E (Option (O × MessageSet M D)) × σ :=
  C.recv_timeout s (C.default_timeout s)

/-- `MessageSetsIter`: the pull iterator's own state, a borrowed consumer
(here its abstract state) plus the per-poll timeout. -/
structure MessageSetsIter (σ : Type) where
  consumer : σ
  timeout : Timeout
deriving DecidableEq, Repr

/-- `AsConsumer::iter_with_timeout`: build the pull iterator. -/
def AsConsumer.iter_with_timeout (_ : AsConsumer σ E O M D) (s : σ)
    (timeout : Timeout) : MessageSetsIter σ :=
  ⟨s, timeout⟩

/-- `AsConsumer::iter`, a provided method:
`self.iter_with_timeout(self.default_timeout())`. -/
def AsConsumer.iter (C : AsConsumer σ E O M D) (s : σ) : MessageSetsIter σ :=
  C.iter_with_timeout s (C.default_timeout s)

/-- `Iterator::next` for `MessageSetsIter`:
`self.consumer.recv_timeout(self.timeout).transpose()` — one receive per
call, its `Result<Option<_>>` transposed into the iterator's
`Option<Result<_>>` item. -/
def MessageSetsIter.next (C : AsConsumer σ E O M D) (it : MessageSetsIter σ) :
    Option (Except E (O × MessageSet M D)) × MessageSetsIter σ :=
  let r := C.recv_timeout it.consumer it.timeout
  (transposeR r.1, ⟨r.2, it.timeout⟩)

/-- The sequence of items the pull iterator yields over (at most) `n`
calls of `next`: it stops at the first `next` that returns `None` (which
the iterator protocol treats as end of iteration). -/
def iterSeq (C : AsConsumer σ E O M D) (s : σ) (timeout : Timeout) :
    Nat → List (Except E (O × MessageSet M D))
  | 0 => []
  | n + 1 =>
    let r := C.recv_timeout s timeout
    match transposeR r.1 with
    | Option.none => []
    | some x => x :: iterSeq C r.2 timeout n

/-- `itertools::Itertools::filter_map_ok` over a produced sequence:
errors pass through unchanged, `Ok` items are mapped by `f` and kept only
when `f` yields a value. -/
def filter_map_ok (f : α → Option β) : List (Except E α) → List (Except E β)
  | [] => []
  | .error e :: l => .error e :: filter_map_ok f l
  | .ok a :: l =>
    match f a with
    | some b => .ok b :: filter_map_ok f l
    | Option.none => filter_map_ok f l

/-- `AsConsumer::iter_data_only` (as the sequence produced over `n`
polls): `self.iter_with_timeout(timeout).filter_map_ok(|m|
m.1.into_data().map(|data| (m.0, data)))`. -/
def AsConsumer.iter_data_only (C : AsConsumer σ E O M D) (s : σ)
    (timeout : Timeout) (n : Nat) : List (Except E (O × D)) :=
  filter_map_ok (fun m => (MessageSet.into_data m.2).map fun data => (m.1, data))
    (iterSeq C s timeout n)

/-- One step of the stream built by `AsAsyncConsumer::stream_with_timeout`
via `futures::stream::unfold`: await one `recv_timeout(timeout)`,
transpose it, and either emit the item with the successor state or (on
`Ok(None)`) end the unfold, which completes the stream. -/
def AsAsyncConsumer.stream_step (C : AsAsyncConsumer σ E O M D) (s : σ)
    (timeout : Timeout) : Option (Except E (O × MessageSet M D) × σ) :=
  let r := runSusp (C.recv_timeout s timeout)
  (transposeR r.1).map fun res => (res, r.2)

/-- `AsAsyncConsumer::stream`, a provided method:
`self.stream_with_timeout(self.default_timeout())`; its first step. -/
def AsAsyncConsumer.stream_step_default (C : AsAsyncConsumer σ E O M D)
    (s : σ) : Option (Except E (O × MessageSet M D) × σ) :=
  C.stream_step s (C.default_timeout s)

/-- `impl<C> AsConsumer for C where C: AsAsyncConsumer + SyncOnAsync`:
every blocking operation is `block_in_place_or_global` applied to the
corresponding suspendable operation. The impl does not provide
`default_timeout`, so the blocking trait's provided body applies. -/
def sync_of_async (C : AsAsyncConsumer σ E O M D) : AsConsumer σ E O M D :=
  ⟨fun _ => default_timeout_provided,
   fun s ts => block_in_place_or_global (C.subscribe s ts),
   fun s t => block_in_place_or_global (C.recv_timeout s t),
   fun s o => block_in_place_or_global (C.commit s o),
   fun s => block_in_place_or_global (C.assignments s),
   fun s tp v o => block_in_place_or_global (C.offset_seek s tp v o)⟩

/-- Modelled from the spec: the suspendable-over-blocking consumer
derivation (`impl AsAsyncConsumer for C where C: AsConsumer +
AsyncOnSync`) is commented out in the source; per the spec, every
suspendable-contract operation is a suspension that, when resumed,
immediately invokes the blocking operation and completes with its
result. -/
def async_of_sync (C : AsConsumer σ E O M D) : AsAsyncConsumer σ E O M D :=
  ⟨C.default_timeout,
   fun s ts => .done (C.subscribe s ts),
   fun s t => .done (C.recv_timeout s t),
   fun s o => .done (C.commit s o),
   fun s => .done (C.assignments s),
   fun s tp v o => .done (C.offset_seek s tp v o)⟩

/-- A duration parser that rejects every input, for exercising the
delegation branch of `Timeout::from_str`. -/
def pd_fail : String → Except String Dur := fun _ => .error "bad"

/-- A consumer whose `recv_timeout` always succeeds with no message
(`Ok(None)`), leaving the state unchanged. -/
def nomsgConsumer : AsConsumer Unit Unit Unit Unit Unit :=
  { subscribe := fun s _ => (.ok (), s),
    recv_timeout := fun _ _ => (.ok Option.none, ()),
    commit := fun s _ => (.ok (), s),
    assignments := fun s => (Option.none, s),
    offset_seek := fun s _ _ _ => (.ok (), s) }

/-- The suspendable counterpart of `nomsgConsumer`: `recv_timeout`
completes immediately with `Ok(None)`. -/
def nomsgAsyncConsumer : AsAsyncConsumer Unit Unit Unit Unit Unit :=
  ⟨fun _ => Timeout.Never,
   fun s _ => .done (.ok (), s),
   fun _ _ => .done (.ok Option.none, ()),
   fun s _ => .done (.ok (), s),
   fun s => .done (Option.none, s),
   fun s _ _ _ => .done (.ok (), s)⟩

/-- A consumer (state: poll counter) whose first poll fails and whose
later polls deliver a data message. -/
def errThenMsgConsumer : AsConsumer Nat Unit Unit Unit Unit :=
  { subscribe := fun s _ => (.ok (), s),
    recv_timeout := fun s _ =>
      if s = 0 then (.error (), 1) else (.ok (some ((), .Data ())), s + 1),
    commit := fun s _ => (.ok (), s),
    assignments := fun s => (Option.none, s),
    offset_seek := fun s _ _ _ => (.ok (), s) }

/-- A consumer that keeps every field's default, in particular
`default_timeout`. -/
def demoConsumer : AsConsumer Nat Unit Unit Unit Unit :=
  { subscribe := fun s _ => (.ok (), s),
    recv_timeout := fun s _ => (.ok Option.none, s + 1),
    commit := fun s _ => (.ok (), s),
    assignments := fun s => (Option.none, s),
    offset_seek := fun s _ _ _ => (.ok (), s) }

/-- C3: every `MessageSet` has metadata or data (the `{false,false}`
combination of `has_meta`/`has_data` never occurs), `into_meta` is `some`
exactly when `has_meta` holds (metadata for `Meta` and `MetaData`, nothing
for `Data`), and `into_data` is `some` exactly when `has_data` holds. -/
theorem c3_messageset_variant_consistency {M D : Type} (ms : MessageSet M D) :
    (ms.has_meta || ms.has_data) = true ∧
    ms.into_meta.isSome = ms.has_meta ∧
    ms.into_data.isSome = ms.has_data ∧
    (∀ m : M, (MessageSet.Meta m : MessageSet M D).into_meta = some m) ∧
    (∀ (m : M) (d : D), (MessageSet.MetaData m d).into_meta = some m) ∧
    (∀ d : D, (MessageSet.Data d : MessageSet M D).into_meta = Option.none) ∧
    (∀ d : D, (MessageSet.Data d : MessageSet M D).into_data = some d) ∧
    (∀ (m : M) (d : D), (MessageSet.MetaData m d).into_data = some d) ∧
    (∀ m : M, (MessageSet.Meta m : MessageSet M D).into_data = Option.none) := by
  refine ⟨?_, ?_, ?_, fun m => rfl, fun m d => rfl, fun d => rfl,
    fun d => rfl, fun m d => rfl, fun m => rfl⟩ <;> cases ms <;> rfl

/-- C7: `as_duration` inverts the `Duration` constructor exactly, and
maps `Never` to the large but finite value
`Duration::from_secs(i64::MAX as u64 / 1000)`, i.e. 9223372036854775
whole seconds. -/
theorem c7_as_duration_inverts :
    (∀ d : Dur, Timeout.as_duration (.Duration d) = d) ∧
    Timeout.as_duration .Never = Duration.from_secs (9223372036854775807 / 1000) ∧
    (Timeout.as_duration .Never).secs = 9223372036854775 ∧
    (Timeout.as_duration .Never).nanos = 0 :=
  ⟨fun _ => rfl, rfl, by decide, rfl⟩

/-- C2 counterexample: `as_raw_timeout` is not injective on variants and
does not saturate. `Duration(0 ms)` encodes to `0` (the claimed exclusive
encoding of `None`), and `Duration(2^64 - 1 ms)` — whose saturated `i64`
value would be `9223372036854775807` — encodes, by the truncating
two's-complement cast, to `-1` (the claimed exclusive encoding of
`Never`). -/
theorem c2_counterexample_raw_encoding_collides :
    Timeout.as_raw_timeout (.Duration (Duration.from_millis 0)) = 0 ∧
    Timeout.as_raw_timeout Timeout.None = 0 ∧
    Timeout.as_raw_timeout (.Duration (Duration.from_millis (2 ^ 64 - 1))) = -1 ∧
    Timeout.as_raw_timeout Timeout.Never = -1 ∧
    Timeout.as_raw_timeout (.Duration (Duration.from_millis (2 ^ 63))) =
      -9223372036854775808 := by
  refine ⟨by decide, rfl, by decide, rfl, by decide⟩

/-- C2 (amended): `as_raw_timeout()` returns `-1` for `Never`, `0` for
`None`, and for `Duration(d)` the low 64 bits of `d`'s millisecond count
reinterpreted in two's complement (Rust's `as i64` truncating cast, not a
saturating conversion); the millisecond count is returned exactly whenever
it is below `2^63`, so the `-1`/`0` encodings are not exclusive to
`Never`/`None`. -/
theorem c2_amended_as_raw_timeout_wrapping :
    Timeout.as_raw_timeout .Never = -1 ∧
    Timeout.as_raw_timeout .None = 0 ∧
    (∀ d : Dur, Timeout.as_raw_timeout (.Duration d) = toI64wrap d.as_millis) ∧
    (∀ d : Dur, d.as_millis < 2 ^ 63 →
      Timeout.as_raw_timeout (.Duration d) = (d.as_millis : Int)) := by
  refine ⟨rfl, rfl, fun d => rfl, fun d h => ?_⟩
  show toI64wrap d.as_millis = _
  have hm : d.as_millis % 2 ^ 64 = d.as_millis :=
    Nat.mod_eq_of_lt (lt_trans h (by norm_num))
  unfold toI64wrap
  rw [hm, if_pos h]
  omega

/-- C2 witness: the amended encoding evaluated at `Duration(500 ms)`,
whose millisecond count is below `2^63`, giving exactly `500`. -/
theorem c2_amended_as_raw_timeout_wrapping_witness :
    Timeout.as_raw_timeout (.Duration (Duration.from_millis 500)) = 500 := by
  have h := c2_amended_as_raw_timeout_wrapping.2.2.2 (Duration.from_millis 500)
    (by decide)
  simpa using h

/-- C6: parsing a `Timeout` rejects the empty string with the dedicated
`Empty` error, accepts any casing of `"never"` / `"none"` as `Never` /
`None`, and otherwise delegates to the duration-expression parser,
wrapping a parse failure in `Invalid` carrying the original input and the
parser's message. -/
theorem c6_timeout_from_str_total (pd : String → Except String Dur)
    (s : String) :
    (s = "" → Timeout.from_str pd s = .error .Empty) ∧
    (s ≠ "" → to_lowercase s = "never" → Timeout.from_str pd s = .ok .Never) ∧
    (s ≠ "" → to_lowercase s = "none" → Timeout.from_str pd s = .ok .None) ∧
    (s ≠ "" → to_lowercase s ≠ "never" → to_lowercase s ≠ "none" →
      (∀ d, pd s = .ok d → Timeout.from_str pd s = .ok (.Duration d)) ∧
      (∀ err, pd s = .error err →
        Timeout.from_str pd s = .error (.Invalid s err))) := by
  refine ⟨fun h => by simp [Timeout.from_str, h],
    fun h hl => by simp [Timeout.from_str, h, hl],
    fun h hl => by simp [Timeout.from_str, h, hl],
    fun h h1 h2 => ⟨fun d hd => ?_, fun err he => ?_⟩⟩ <;>
    · unfold Timeout.from_str
      rw [if_neg h]
      split
      · next hl => exact absurd hl h1
      · next hl => exact absurd hl h2
      · simp_all

/-- C6 witness: concrete parses — the empty string gives `Empty`,
`"NeVer"` and `"NONE"` parse case-insensitively, and `"5x"` (rejected by
the delegate parser) gives `Invalid` carrying the input. -/
theorem c6_timeout_from_str_total_witness :
    Timeout.from_str pd_fail "" = .error .Empty ∧
    Timeout.from_str pd_fail "NeVer" = .ok .Never ∧
    Timeout.from_str pd_fail "NONE" = .ok .None ∧
    Timeout.from_str pd_fail "5x" = .error (.Invalid "5x" "bad") :=
  ⟨(c6_timeout_from_str_total pd_fail "").1 rfl,
   (c6_timeout_from_str_total pd_fail "NeVer").2.1 (by decide) (by decide),
   (c6_timeout_from_str_total pd_fail "NONE").2.2.1 (by decide) (by decide),
   ((c6_timeout_from_str_total pd_fail "5x").2.2.2 (by decide) (by decide)
     (by decide)).2 "bad" rfl⟩

/-- C10: the provided `default_timeout` body is `Timeout::Never`, so a
blocking consumer that does not override it (its `default_timeout` is the
provided one) has `recv()` equal to `recv_timeout(Never)` — `recv` always
equals `recv_timeout(self.default_timeout())` — and `iter()` polling with
`Never`, i.e. waiting indefinitely per poll. -/
theorem c10_default_timeout_never (C : AsConsumer σ E O M D) (s : σ)
    (h : C.default_timeout = fun _ => default_timeout_provided) :
    default_timeout_provided = Timeout.Never ∧
    C.default_timeout s = Timeout.Never ∧
    C.recv s = C.recv_timeout s (C.default_timeout s) ∧
    C.recv s = C.recv_timeout s Timeout.Never ∧
    C.iter s = C.iter_with_timeout s Timeout.Never ∧
    (C.iter s).timeout = Timeout.Never := by
  refine ⟨rfl, ?_, rfl, ?_, ?_, ?_⟩ <;>
    simp [AsConsumer.recv, AsConsumer.iter, AsConsumer.iter_with_timeout, h,
      default_timeout_provided]

/-- C10 witness: `demoConsumer` keeps the provided `default_timeout`, so
its default is `Never` and `recv` equals `recv_timeout` at `Never`. -/
theorem c10_default_timeout_never_witness :
    demoConsumer.default_timeout 0 = Timeout.Never ∧
    demoConsumer.recv 0 = demoConsumer.recv_timeout 0 Timeout.Never := by
  have h := c10_default_timeout_never demoConsumer 0 rfl
  exact ⟨h.2.1, h.2.2.2.1⟩

/-- C1 counterexample: against a consumer whose `recv_timeout` returns
success-with-no-message (`Ok(None)`), the pull iterator's `next` returns
the end-of-iteration signal (`None`) — so over any number of polls the
produced sequence is empty — and one step of the
`stream_with_timeout` unfold returns `None`, which completes the stream;
neither adapter keeps polling past `Ok(None)` as the claim states. -/
theorem c1_counterexample_ends_on_no_message :
    (MessageSetsIter.next nomsgConsumer ⟨(), Timeout.from_millis 100⟩).1 =
      Option.none ∧
    iterSeq nomsgConsumer () (Timeout.from_millis 100) 5 = [] ∧
    nomsgAsyncConsumer.stream_step () (Timeout.from_millis 100) = Option.none :=
  ⟨rfl, rfl, rfl⟩

/-- C1 (amended): each `next` call of the pull iterator performs exactly
one `recv_timeout(timeout)` — the item is that single receive's transposed
result, the consumer state advances by exactly that one receive, and the
timeout is kept for the next poll — and each step of the
`stream_with_timeout` unfold likewise performs one `recv_timeout`; a
received message is yielded as an `Ok` element and an error as an `Err`
element, but success-with-no-message (`Ok(None)`) transposes to `None`,
which ends the iteration and completes the stream rather than polling
on. -/
theorem c1_amended_one_recv_per_next {σ E O M D : Type}
    (C : AsConsumer σ E O M D) (it : MessageSetsIter σ)
    (CA : AsAsyncConsumer σ E O M D) (s : σ) (t : Timeout) :
    MessageSetsIter.next C it =
      (transposeR (C.recv_timeout it.consumer it.timeout).1,
        ⟨(C.recv_timeout it.consumer it.timeout).2, it.timeout⟩) ∧
    CA.stream_step s t =
      (transposeR (runSusp (CA.recv_timeout s t)).1).map
        (fun res => (res, (runSusp (CA.recv_timeout s t)).2)) ∧
    transposeR (.ok Option.none : Except E (Option (O × MessageSet M D))) =
      Option.none ∧
    (∀ x : O × MessageSet M D,
      transposeR (.ok (some x) : Except E (Option (O × MessageSet M D))) =
        some (.ok x)) ∧
    (∀ e : E,
      transposeR (.error e : Except E (Option (O × MessageSet M D))) =
        some (.error e)) :=
  ⟨rfl, rfl, rfl, fun _ => rfl, fun _ => rfl⟩

/-- C8: when the receive inside a `next` call fails, the error is yielded
as a distinct `Err` element of the sequence (not the end-of-iteration
signal), the iterator keeps its timeout, and a subsequent `next` call that
receives a message still yields it — iteration continues past the
error. -/
theorem c8_poll_error_surfaced_as_element (C : AsConsumer σ E O M D)
    (it : MessageSetsIter σ) (e : E)
    (h : (C.recv_timeout it.consumer it.timeout).1 = .error e) :
    (MessageSetsIter.next C it).1 = some (.error e) ∧
    (MessageSetsIter.next C it).2.timeout = it.timeout ∧
    ∀ x, (C.recv_timeout (MessageSetsIter.next C it).2.consumer
        it.timeout).1 = .ok (some x) →
      (MessageSetsIter.next C (MessageSetsIter.next C it).2).1 =
        some (.ok x) := by
  refine ⟨by simp [MessageSetsIter.next, h, transposeR], rfl, fun x hx => ?_⟩
  simp [MessageSetsIter.next] at hx ⊢
  rw [hx]
  rfl

/-- C8 witness: `errThenMsgConsumer` fails on its first poll and delivers
a data message on the second; the iterator yields the error as an element
and then the message. -/
theorem c8_poll_error_surfaced_as_element_witness :
    (MessageSetsIter.next errThenMsgConsumer ⟨0, Timeout.never⟩).1 =
      some (.error ()) ∧
    (MessageSetsIter.next errThenMsgConsumer
        (MessageSetsIter.next errThenMsgConsumer ⟨0, Timeout.never⟩).2).1 =
      some (.ok ((), MessageSet.Data ())) := by
  have h := c8_poll_error_surfaced_as_element errThenMsgConsumer
    ⟨0, Timeout.never⟩ () rfl
  exact ⟨h.1, h.2.2 ((), MessageSet.Data ()) rfl⟩

/-- C9: `iter_data_only` is the pull iterator's sequence passed through
`filter_map_ok` with `m.1.into_data().map(|data| (m.0, data))`: a received
message with a data payload (`Data` or `MetaData`) contributes the pair
`(offset, data)`, a `Meta`-only message is discarded, and each per-poll
error passes through unchanged as an `Err` element. -/
theorem c9_iter_data_only_filters {σ E O M D : Type}
    (C : AsConsumer σ E O M D) (s : σ) (t : Timeout) (n : Nat) :
    C.iter_data_only s t n =
      filter_map_ok
        (fun m => (MessageSet.into_data m.2).map fun data => (m.1, data))
        (iterSeq C s t n) ∧
    (∀ (o : O) (m : M) (l : List (Except E (O × MessageSet M D))),
      filter_map_ok
        (fun m => (MessageSet.into_data m.2).map fun data => (m.1, data))
        (.ok (o, MessageSet.Meta m) :: l) =
      filter_map_ok
        (fun m => (MessageSet.into_data m.2).map fun data => (m.1, data)) l) ∧
    (∀ (o : O) (d : D) (l : List (Except E (O × MessageSet M D))),
      filter_map_ok
        (fun m => (MessageSet.into_data m.2).map fun data => (m.1, data))
        (.ok (o, MessageSet.Data d) :: l) =
      .ok (o, d) ::
        filter_map_ok
          (fun m => (MessageSet.into_data m.2).map fun data => (m.1, data)) l) ∧
    (∀ (o : O) (m : M) (d : D) (l : List (Except E (O × MessageSet M D))),
      filter_map_ok
        (fun m => (MessageSet.into_data m.2).map fun data => (m.1, data))
        (.ok (o, MessageSet.MetaData m d) :: l) =
      .ok (o, d) ::
        filter_map_ok
          (fun m => (MessageSet.into_data m.2).map fun data => (m.1, data)) l) ∧
    (∀ (e : E) (l : List (Except E (O × MessageSet M D))),
      filter_map_ok
        (fun m => (MessageSet.into_data m.2).map fun data => (m.1, data))
        (.error e :: l) =
      .error e ::
        filter_map_ok
          (fun m => (MessageSet.into_data m.2).map fun data => (m.1, data)) l) :=
  ⟨rfl, fun _ _ _ => rfl, fun _ _ _ => rfl, fun _ _ _ _ => rfl, fun _ _ => rfl⟩

/-- C4: the blocking consumer derived from a suspendable one (the
`SyncOnAsync` blanket impl) gives, for each of `subscribe`,
`recv_timeout`, `commit`, `assignments` and `offset_seek`, exactly the
result of running the corresponding suspendable operation to completion —
the same success or error outcome with the underlying error value
unchanged — and likewise for the blocking meta capability derived by the
`SyncOnAsync` meta blanket impl. -/
theorem c4_blocking_over_suspendable_transparent
    {σ E O M D T RM JM : Type} (C : AsAsyncConsumer σ E O M D) (s : σ)
    (t : Timeout) (ts : List String) (o : O) (tp : String) (v : VGroupId)
    (ofs : Int) (I : IsAsyncMeta T E RM JM) (x : T) :
    (sync_of_async C).subscribe s ts = runSusp (C.subscribe s ts) ∧
    (sync_of_async C).recv_timeout s t = runSusp (C.recv_timeout s t) ∧
    (sync_of_async C).commit s o = runSusp (C.commit s o) ∧
    (sync_of_async C).assignments s = runSusp (C.assignments s) ∧
    (sync_of_async C).offset_seek s tp v ofs =
      runSusp (C.offset_seek s tp v ofs) ∧
    (IsMeta.of_async I).as_raw_meta x = runSusp (I.as_raw_meta x) ∧
    (IsMeta.of_async I).as_json_meta x = runSusp (I.as_json_meta x) :=
  ⟨rfl, rfl, rfl, rfl, rfl, rfl, rfl⟩

/-- C5: the suspendable operations derived from a blocking implementation
(the `AsyncOnSync` meta blanket impl, and the spec-modelled consumer
derivation whose source impl is commented out) are suspensions with no
intermediate suspension point — each is `done` of the blocking call — so
resuming them to completion yields exactly the blocking operation's
outcome. -/
theorem c5_suspendable_over_blocking_immediate
    {σ E O M D T RM JM : Type} (I : IsMeta T E RM JM) (x : T)
    (C : AsConsumer σ E O M D) (s : σ) (t : Timeout) (ts : List String)
    (o : O) (tp : String) (v : VGroupId) (ofs : Int) :
    (IsAsyncMeta.of_sync I).as_raw_meta x = .done (I.as_raw_meta x) ∧
    (IsAsyncMeta.of_sync I).as_json_meta x = .done (I.as_json_meta x) ∧
    runSusp ((IsAsyncMeta.of_sync I).as_raw_meta x) = I.as_raw_meta x ∧
    runSusp ((IsAsyncMeta.of_sync I).as_json_meta x) = I.as_json_meta x ∧
    (async_of_sync C).subscribe s ts = .done (C.subscribe s ts) ∧
    (async_of_sync C).recv_timeout s t = .done (C.recv_timeout s t) ∧
    (async_of_sync C).commit s o = .done (C.commit s o) ∧
    (async_of_sync C).assignments s = .done (C.assignments s) ∧
    (async_of_sync C).offset_seek s tp v ofs =
      .done (C.offset_seek s tp v ofs) ∧
    runSusp ((async_of_sync C).recv_timeout s t) = C.recv_timeout s t :=
  ⟨rfl, rfl, rfl, rfl, rfl, rfl, rfl, rfl, rfl, rfl⟩
